import Mathlib

/-!
Verification of the CSFML binding's 2D affine-transform core and of the
null-handle / output-pointer discipline of its network binding layer.

The graphics implementation files (`Transform.cpp`, `Transformable.cpp`) are
not part of the source tree here, only their public headers are; those
operations are therefore modelled from the specification (each such
definition carries a doc comment starting with `Modelled from the spec:`).
The network sources `UdpSocket.cpp` and `IpAddress.cpp` are present and are
embedded directly.  Floating-point scalars are modelled as exact rationals.
-/

/-- Modelled from the spec: `sfTransform` owns a 3x3 homogeneous matrix
stored as 9 coefficients in row-major order (the implementation file
`Transform.cpp` is not in the tree).  Scalars are exact rationals. -/
structure sfTransform where
  a00 : ℚ
  a01 : ℚ
  a02 : ℚ
  a10 : ℚ
  a11 : ℚ
  a12 : ℚ
  a20 : ℚ
  a21 : ℚ
  a22 : ℚ
deriving DecidableEq, Repr

/-- Modelled from the spec: `sfTransform_Create` returns the identity
transform. -/
def sfTransform_Create : sfTransform :=
  ⟨1, 0, 0, 0, 1, 0, 0, 0, 1⟩

/-- Modelled from the spec: `sfTransform_CreateFromMatrix` builds a transform
from explicit 3x3 affine coefficients; the non-affine bottom row is fixed at
`[0,0,1]`. -/
def sfTransform_CreateFromMatrix (b00 b01 b02 b10 b11 b12 _b20 _b21 _b22 : ℚ) :
    sfTransform :=
  ⟨b00, b01, b02, b10, b11, b12, 0, 0, 1⟩

/-- Modelled from the spec: `sfTransform_TransformPoint` applies the full
affine map to a 2D point. -/
def sfTransform_TransformPoint (t : sfTransform) (x y : ℚ) : ℚ × ℚ :=
  (t.a00 * x + t.a01 * y + t.a02, t.a10 * x + t.a11 * y + t.a12)

/-- Modelled from the spec: `sfTransform_Combine` is matrix multiplication,
`this = this * other`. -/
def sfTransform_Combine (t o : sfTransform) : sfTransform :=
  ⟨t.a00 * o.a00 + t.a01 * o.a10 + t.a02 * o.a20,
   t.a00 * o.a01 + t.a01 * o.a11 + t.a02 * o.a21,
   t.a00 * o.a02 + t.a01 * o.a12 + t.a02 * o.a22,
   t.a10 * o.a00 + t.a11 * o.a10 + t.a12 * o.a20,
   t.a10 * o.a01 + t.a11 * o.a11 + t.a12 * o.a21,
   t.a10 * o.a02 + t.a11 * o.a12 + t.a12 * o.a22,
   t.a20 * o.a00 + t.a21 * o.a10 + t.a22 * o.a20,
   t.a20 * o.a01 + t.a21 * o.a11 + t.a22 * o.a21,
   t.a20 * o.a02 + t.a21 * o.a12 + t.a22 * o.a22⟩

/-- Modelled from the spec: the determinant of the 3x3 matrix, computed via
the standard cofactor expansion along the first row. -/
def sfTransform_Determinant (t : sfTransform) : ℚ :=
  t.a00 * (t.a11 * t.a22 - t.a21 * t.a12)
    - t.a01 * (t.a10 * t.a22 - t.a20 * t.a12)
    + t.a02 * (t.a10 * t.a21 - t.a20 * t.a11)

/-- Modelled from the spec: the implementation-chosen singularity threshold;
a determinant of absolute value below this is treated as singular. -/
def singularThreshold : ℚ := 1 / 1000000

/-- Modelled from the spec: `sfTransform_GetInverse` returns the mathematical
inverse (adjugate over determinant); if the determinant is below the
singularity threshold it returns the identity transform instead of failing. -/
def sfTransform_GetInverse (t : sfTransform) : sfTransform :=
  let det := sfTransform_Determinant t
  if |det| < singularThreshold then
    sfTransform_Create
  else
    ⟨(t.a11 * t.a22 - t.a21 * t.a12) / det,
     -(t.a01 * t.a22 - t.a21 * t.a02) / det,
     (t.a01 * t.a12 - t.a11 * t.a02) / det,
     -(t.a10 * t.a22 - t.a20 * t.a12) / det,
     (t.a00 * t.a22 - t.a20 * t.a02) / det,
     -(t.a00 * t.a12 - t.a10 * t.a02) / det,
     (t.a10 * t.a21 - t.a20 * t.a11) / det,
     -(t.a00 * t.a21 - t.a20 * t.a01) / det,
     (t.a00 * t.a11 - t.a10 * t.a01) / det⟩

/-- A transform whose bottom row is the affine row `[0,0,1]`; the spec's data
model invariant (every transform is a valid affine map). -/
def sfTransform.IsAffine (t : sfTransform) : Prop :=
  t.a20 = 0 ∧ t.a21 = 0 ∧ t.a22 = 1

instance (t : sfTransform) : Decidable t.IsAffine := by
  unfold sfTransform.IsAffine
  infer_instance

/-- An axis-aligned rectangle given by its left/top corner and its size,
mirroring `sfFloatRect`. -/
structure sfFloatRect where
  Left : ℚ
  Top : ℚ
  Width : ℚ
  Height : ℚ
deriving DecidableEq, Repr

/-- One step of the single-pass bounding accumulation used while
transforming a rectangle: the state is the running (low, high) pair. -/
def boundsAcc (st : ℚ × ℚ) (v : ℚ) : ℚ × ℚ :=
  if v < st.1 then (v, st.2)
  else if v > st.2 then (st.1, v)
  else st

/-- Modelled from the spec: `sfTransform_TransformRect` maps the four corners
of the input rectangle through `sfTransform_TransformPoint` and accumulates
the enclosing axis-aligned box in a single pass. -/
def sfTransform_TransformRect (t : sfTransform) (r : sfFloatRect) : sfFloatRect :=
  let p0 := sfTransform_TransformPoint t r.Left r.Top
  let p1 := sfTransform_TransformPoint t r.Left (r.Top + r.Height)
  let p2 := sfTransform_TransformPoint t (r.Left + r.Width) r.Top
  let p3 := sfTransform_TransformPoint t (r.Left + r.Width) (r.Top + r.Height)
  let xb := boundsAcc (boundsAcc (boundsAcc (p0.1, p0.1) p1.1) p2.1) p3.1
  let yb := boundsAcc (boundsAcc (boundsAcc (p0.2, p0.2) p1.2) p2.2) p3.2
  ⟨xb.1, yb.1, xb.2 - xb.1, yb.2 - yb.1⟩

/-- The spec's description of `transformRect`: the axis-aligned bounding box
of the four transformed corner points, written with explicit min/max. -/
def transformRectSpec (t : sfTransform) (r : sfFloatRect) : sfFloatRect :=
  let p0 := sfTransform_TransformPoint t r.Left r.Top
  let p1 := sfTransform_TransformPoint t r.Left (r.Top + r.Height)
  let p2 := sfTransform_TransformPoint t (r.Left + r.Width) r.Top
  let p3 := sfTransform_TransformPoint t (r.Left + r.Width) (r.Top + r.Height)
  let lo := min (min (min p0.1 p1.1) p2.1) p3.1
  let hi := max (max (max p0.1 p1.1) p2.1) p3.1
  let to' := min (min (min p0.2 p1.2) p2.2) p3.2
  let bo := max (max (max p0.2 p1.2) p2.2) p3.2
  ⟨lo, to', hi - lo, bo - to'⟩

/-- Floored modulo by 360: the unique representative of `a` in `[0, 360)`. -/
def fmod360 (a : ℚ) : ℚ := a - 360 * ⌊a / 360⌋

/-- Modelled from the spec: `sfTransformable` owns position, rotation
(degrees, kept normalized), scale and origin, plus the lazily computed
cached Transform (`none` encodes the Dirty state).  The implementation file
`Transformable.cpp` is not in the tree. -/
structure sfTransformable where
  positionX : ℚ
  positionY : ℚ
  rotation : ℚ
  scaleX : ℚ
  scaleY : ℚ
  originX : ℚ
  originY : ℚ
  transformCache : Option sfTransform
deriving DecidableEq, Repr

/-- Modelled from the spec: a fresh transformable has position (0,0),
rotation 0, scale (1,1), origin (0,0) and no valid cache yet. -/
def sfTransformable_Create : sfTransformable :=
  ⟨0, 0, 0, 1, 1, 0, 0, none⟩

/-- Modelled from the spec: `SetPosition` overwrites the position and marks
the cached transform dirty. -/
def sfTransformable_SetPosition (t : sfTransformable) (x y : ℚ) : sfTransformable :=
  { t with positionX := x, positionY := y, transformCache := none }

/-- Modelled from the spec: `SetRotation` overwrites the rotation, normalized
into `[0, 360)`, and marks the cached transform dirty. -/
def sfTransformable_SetRotation (t : sfTransformable) (angle : ℚ) : sfTransformable :=
  { t with rotation := fmod360 angle, transformCache := none }

/-- Modelled from the spec: `SetScale` overwrites the scale factors and marks
the cached transform dirty. -/
def sfTransformable_SetScale (t : sfTransformable) (fx fy : ℚ) : sfTransformable :=
  { t with scaleX := fx, scaleY := fy, transformCache := none }

/-- Modelled from the spec: `SetOrigin` overwrites the local origin and marks
the cached transform dirty. -/
def sfTransformable_SetOrigin (t : sfTransformable) (x y : ℚ) : sfTransformable :=
  { t with originX := x, originY := y, transformCache := none }

/-- Modelled from the spec: `Move` adds an offset to the current position. -/
def sfTransformable_Move (t : sfTransformable) (dx dy : ℚ) : sfTransformable :=
  sfTransformable_SetPosition t (t.positionX + dx) (t.positionY + dy)

/-- Modelled from the spec: `Rotate` adds an angle to the current rotation. -/
def sfTransformable_Rotate (t : sfTransformable) (angle : ℚ) : sfTransformable :=
  sfTransformable_SetRotation t (t.rotation + angle)

/-- Modelled from the spec: `Scale` multiplies the current scale factors. -/
def sfTransformable_Scale (t : sfTransformable) (fx fy : ℚ) : sfTransformable :=
  sfTransformable_SetScale t (t.scaleX * fx) (t.scaleY * fy)

/-- Modelled from the spec: `GetRotation` returns the stored (normalized)
rotation. -/
def sfTransformable_GetRotation (t : sfTransformable) : ℚ :=
  t.rotation

/-- A translation transform `T(x, y)`. -/
def translationTransform (x y : ℚ) : sfTransform :=
  sfTransform_CreateFromMatrix 1 0 x 0 1 y 0 0 1

/-- A rotation transform `R` built from the cosine and sine of the angle
(the embedding keeps the trigonometric pair abstract since scalars are exact
rationals). -/
def rotationTransform (c s : ℚ) : sfTransform :=
  sfTransform_CreateFromMatrix c (-s) 0 s c 0 0 0 1

/-- A scaling transform `S(sx, sy)`. -/
def scalingTransform (sx sy : ℚ) : sfTransform :=
  sfTransform_CreateFromMatrix sx 0 0 0 sy 0 0 0 1

/-- The spec's invariant matrix product
`T(position) * R(rotation) * S(scale) * T(-origin)`, where `trig` maps an
angle in degrees to the (cosine, sine) pair of the rotation. -/
def composedTransform (trig : ℚ → ℚ × ℚ) (t : sfTransformable) : sfTransform :=
  sfTransform_Combine
    (sfTransform_Combine
      (sfTransform_Combine
        (translationTransform t.positionX t.positionY)
        (rotationTransform (trig t.rotation).1 (trig t.rotation).2))
      (scalingTransform t.scaleX t.scaleY))
    (translationTransform (-t.originX) (-t.originY))

/-- Modelled from the spec: the fused single-pass computation of the
composed transform performed when the cache is dirty. -/
def computeTransform (trig : ℚ → ℚ × ℚ) (t : sfTransformable) : sfTransform :=
  let c := (trig t.rotation).1
  let s := (trig t.rotation).2
  let sxc := t.scaleX * c
  let syc := t.scaleY * c
  let sxs := t.scaleX * s
  let sys := t.scaleY * s
  let tx := -t.originX * sxc + t.originY * sys + t.positionX
  let ty := -t.originX * sxs - t.originY * syc + t.positionY
  sfTransform_CreateFromMatrix sxc (-sys) tx sxs syc ty 0 0 1

/-- Modelled from the spec: `GetTransform` returns the cached transform when
it is valid, otherwise recomputes it, stores it, and transitions the state
machine back to Clean. -/
def sfTransformable_GetTransform (trig : ℚ → ℚ × ℚ) (t : sfTransformable) :
    sfTransform × sfTransformable :=
  match t.transformCache with
  | some m => (m, t)
  | none =>
      let m := computeTransform trig t
      (m, { t with transformCache := some m })

/-- The operations a caller can perform on a transformable: the four absolute
setters, the three relative adjusters, and a transform query (which fills the
cache). -/
inductive TOp where
  | setPosition (x y : ℚ)
  | setRotation (angle : ℚ)
  | setScale (fx fy : ℚ)
  | setOrigin (x y : ℚ)
  | move (dx dy : ℚ)
  | rotate (angle : ℚ)
  | scaleBy (fx fy : ℚ)
  | query
deriving DecidableEq, Repr

/-- State reached after one operation. -/
def applyTOp (trig : ℚ → ℚ × ℚ) (t : sfTransformable) : TOp → sfTransformable
  | .setPosition x y => sfTransformable_SetPosition t x y
  | .setRotation a => sfTransformable_SetRotation t a
  | .setScale fx fy => sfTransformable_SetScale t fx fy
  | .setOrigin x y => sfTransformable_SetOrigin t x y
  | .move dx dy => sfTransformable_Move t dx dy
  | .rotate a => sfTransformable_Rotate t a
  | .scaleBy fx fy => sfTransformable_Scale t fx fy
  | .query => (sfTransformable_GetTransform trig t).2

/-- State reached after a sequence of operations. -/
def applyTOps (trig : ℚ → ℚ × ℚ) (ops : List TOp) (t : sfTransformable) :
    sfTransformable :=
  ops.foldl (applyTOp trig) t

/-- The cache invariant: whenever the cached transform is valid, it equals
the composed transform of the current attribute values. -/
def CacheOK (trig : ℚ → ℚ × ℚ) (t : sfTransformable) : Prop :=
  ∀ m, t.transformCache = some m → m = composedTransform trig t

/-- The socket status codes of `sfSocketStatus`. -/
inductive sfSocketStatus where
  | sfSocketDone
  | sfSocketNotReady
  | sfSocketDisconnected
  | sfSocketError
deriving DecidableEq, Repr

export sfSocketStatus (sfSocketDone sfSocketNotReady sfSocketDisconnected sfSocketError)

/-- `sfBool` false value. -/
def sfFalse : Bool := false

/-- `sfBool` true value. -/
def sfTrue : Bool := true

/-- `sfIpAddress`: a value type holding the textual address in a fixed
16-character buffer, modelled as a string of at most 16 characters. -/
structure sfIpAddress where
  Address : String
deriving DecidableEq, Repr

/-- What the wrapped engine reports for one datagram receive: the status,
the number of bytes received, the sender's address and the sender's port. -/
structure EngineRecv (α : Type) where
  status : sfSocketStatus
  received : Nat
  sender : α
  senderPort : Nat

/-- The wrapped engine's `sf::UdpSocket` interface, kept abstract: `σ` is the
engine socket state, `α` the engine's address type.  The binding layer under
verification only forwards into these operations. -/
structure UdpEngine (σ α : Type) where
  bindOp : σ → Nat → sfSocketStatus
  isBlocking : σ → Bool
  getLocalPort : σ → Nat
  sendOp : σ → List Char → α → Nat → sfSocketStatus
  receiveOp : σ → Nat → EngineRecv α
  receivePacketOp : σ → List Char → EngineRecv α
  addrToString : α → String
  addrOfString : String → α

/-- The caller-supplied output cells of `sfUdpSocket_Receive`: each field is
`none` when the corresponding pointer is NULL, `some v` when it points at a
cell currently holding `v`. -/
structure RecvOut where
  sizeReceived : Option Nat
  address : Option String
  port : Option Nat
deriving DecidableEq, Repr

/-- The caller-supplied output cells of `sfUdpSocket_ReceivePacket`. -/
structure RecvPacketOut where
  address : Option String
  port : Option Nat
deriving DecidableEq, Repr

/-- `sfUdpSocket_Destroy`: `delete socket` — the handle is released; on a
null handle this is a defined no-op. -/
def sfUdpSocket_Destroy {σ : Type} (_socket : Option σ) : Option σ :=
  none

/-- `sfUdpSocket_IsBlocking`: `CSFML_CALL_RETURN(socket, IsBlocking(), sfFalse)`;
the default `sfFalse` is returned on a null handle (macro behaviour modelled
from the spec's default-value-return convention, `Internal.h` is not in the
tree). -/
def sfUdpSocket_IsBlocking {σ α : Type} (E : UdpEngine σ α)
    (socket : Option σ) : Bool :=
  match socket with
  | none => sfFalse
  | some s => E.isBlocking s

/-- `sfUdpSocket_GetLocalPort`: `CSFML_CALL_RETURN(socket, GetLocalPort(), 0)`;
returns 0 on a null handle. -/
def sfUdpSocket_GetLocalPort {σ α : Type} (E : UdpEngine σ α)
    (socket : Option σ) : Nat :=
  match socket with
  | none => 0
  | some s => E.getLocalPort s

/-- `sfUdpSocket_Bind`: `CSFML_CHECK_RETURN(socket, sfSocketError)` then
forwards to the engine's `Bind`. -/
def sfUdpSocket_Bind {σ α : Type} (E : UdpEngine σ α)
    (socket : Option σ) (port : Nat) : sfSocketStatus :=
  match socket with
  | none => sfSocketError
  | some s => E.bindOp s port

/-- `sfUdpSocket_Send`: `CSFML_CHECK_RETURN(socket, sfSocketError)`, converts
the address, then forwards to the engine's `Send`. -/
def sfUdpSocket_Send {σ α : Type} (E : UdpEngine σ α) (socket : Option σ)
    (data : List Char) (address : sfIpAddress) (port : Nat) : sfSocketStatus :=
  match socket with
  | none => sfSocketError
  | some s => E.sendOp s data (E.addrOfString address.Address) port

/-- `sfUdpSocket_Receive`: null check, engine receive, early return of any
non-`Done` status before the output cells are touched, then conditional
writes guarded by the nullness of each output pointer (`strncpy` bounded at
16 characters for the address). -/
def sfUdpSocket_Receive {σ α : Type} (E : UdpEngine σ α) (socket : Option σ)
    (maxSize : Nat) (out : RecvOut) : sfSocketStatus × RecvOut :=
  match socket with
  | none => (sfSocketError, out)
  | some s =>
      let r := E.receiveOp s maxSize
      if r.status ≠ sfSocketDone then
        (r.status, out)
      else
        (sfSocketDone,
          { sizeReceived := out.sizeReceived.map fun _ => r.received,
            address := out.address.map fun _ => (E.addrToString r.sender).take 16,
            port := out.port.map fun _ => r.senderPort })

/-- `sfUdpSocket_ReceivePacket`: null checks on the socket and the packet,
engine receive, early return of any non-`Done` status before the output
cells are touched, then conditional writes. -/
def sfUdpSocket_ReceivePacket {σ α : Type} (E : UdpEngine σ α)
    (socket : Option σ) (packet : Option (List Char)) (out : RecvPacketOut) :
    sfSocketStatus × RecvPacketOut :=
  match socket with
  | none => (sfSocketError, out)
  | some s =>
      match packet with
      | none => (sfSocketError, out)
      | some p =>
          let r := E.receivePacketOp s p
          if r.status ≠ sfSocketDone then
            (r.status, out)
          else
            (sfSocketDone,
              { address := out.address.map fun _ => (E.addrToString r.sender).take 16,
                port := out.port.map fun _ => r.senderPort })

/-- `sfIpAddress_ToString`: `if (string) strcpy(string, address.Address);` —
copies the stored text into the destination cell only when the destination
pointer is non-null. -/
def sfIpAddress_ToString (address : sfIpAddress) (string : Option String) :
    Option String :=
  string.map fun _ => address.Address

/-- A concrete engine used by closed witness statements: every receive
reports `NotReady`. -/
def witnessEngine : UdpEngine Unit Unit where
  bindOp := fun _ _ => sfSocketDone
  isBlocking := fun _ => false
  getLocalPort := fun _ => 0
  sendOp := fun _ _ _ _ => sfSocketDone
  receiveOp := fun _ _ => ⟨sfSocketNotReady, 0, (), 0⟩
  receivePacketOp := fun _ _ => ⟨sfSocketNotReady, 0, (), 0⟩
  addrToString := fun _ => "0.0.0.0"
  addrOfString := fun _ => ()

/-- A concrete engine used by closed witness statements: every receive
succeeds with 3 bytes from port 4. -/
def witnessEngineDone : UdpEngine Unit Unit :=
  { witnessEngine with receiveOp := fun _ _ => ⟨sfSocketDone, 3, (), 4⟩ }

lemma computeTransform_eq_composed (trig : ℚ → ℚ × ℚ) (t : sfTransformable) :
    computeTransform trig t = composedTransform trig t := by
  simp only [computeTransform, composedTransform, sfTransform_Combine,
    translationTransform, rotationTransform, scalingTransform,
    sfTransform_CreateFromMatrix, sfTransform.mk.injEq]
  refine ⟨by ring, by ring, by ring, by ring, by ring, by ring, by ring, by ring, by ring⟩

lemma composedTransform_set_cache (trig : ℚ → ℚ × ℚ) (t : sfTransformable)
    (c : Option sfTransform) :
    composedTransform trig { t with transformCache := c } = composedTransform trig t := rfl

lemma cacheOK_create (trig : ℚ → ℚ × ℚ) : CacheOK trig sfTransformable_Create := by
  intro m hm
  simp [sfTransformable_Create] at hm

lemma cacheOK_applyTOp (trig : ℚ → ℚ × ℚ) (t : sfTransformable) (op : TOp)
    (h : CacheOK trig t) : CacheOK trig (applyTOp trig t op) := by
  cases op with
  | setPosition x y =>
      intro m hm
      simp [applyTOp, sfTransformable_SetPosition] at hm
  | setRotation a =>
      intro m hm
      simp [applyTOp, sfTransformable_SetRotation] at hm
  | setScale fx fy =>
      intro m hm
      simp [applyTOp, sfTransformable_SetScale] at hm
  | setOrigin x y =>
      intro m hm
      simp [applyTOp, sfTransformable_SetOrigin] at hm
  | move dx dy =>
      intro m hm
      simp [applyTOp, sfTransformable_Move, sfTransformable_SetPosition] at hm
  | rotate a =>
      intro m hm
      simp [applyTOp, sfTransformable_Rotate, sfTransformable_SetRotation] at hm
  | scaleBy fx fy =>
      intro m hm
      simp [applyTOp, sfTransformable_Scale, sfTransformable_SetScale] at hm
  | query =>
      intro m hm
      cases hc : t.transformCache with
      | some m0 =>
          have ht : applyTOp trig t .query = t := by
            simp [applyTOp, sfTransformable_GetTransform, hc]
          rw [ht] at hm ⊢
          exact h m hm
      | none =>
          have ht : applyTOp trig t .query
              = { t with transformCache := some (computeTransform trig t) } := by
            simp [applyTOp, sfTransformable_GetTransform, hc]
          rw [ht] at hm ⊢
          simp only [Option.some.injEq] at hm
          rw [composedTransform_set_cache, ← hm]
          exact computeTransform_eq_composed trig t

lemma cacheOK_applyTOps (trig : ℚ → ℚ × ℚ) (ops : List TOp) (t : sfTransformable)
    (h : CacheOK trig t) : CacheOK trig (applyTOps trig ops t) := by
  induction ops generalizing t with
  | nil => exact h
  | cons op ops ih =>
      exact ih (applyTOp trig t op) (cacheOK_applyTOp trig t op h)

lemma getTransform_fst_eq (trig : ℚ → ℚ × ℚ) (t : sfTransformable)
    (h : CacheOK trig t) :
    (sfTransformable_GetTransform trig t).1 = composedTransform trig t := by
  cases hc : t.transformCache with
  | some m =>
      simp only [sfTransformable_GetTransform, hc]
      exact h m hc
  | none =>
      simp only [sfTransformable_GetTransform, hc]
      exact computeTransform_eq_composed trig t

/-- Claim C1: for every Transformable state reached by any sequence of
mutator/query calls from a fresh object, the Transform returned by
`GetTransform` equals the matrix product
`T(position) * R(rotation) * S(scale) * T(-origin)` over the attribute
values current at the time of the call. -/
theorem getTransform_is_composed (trig : ℚ → ℚ × ℚ) (ops : List TOp) :
    (sfTransformable_GetTransform trig (applyTOps trig ops sfTransformable_Create)).1
      = composedTransform trig (applyTOps trig ops sfTransformable_Create) :=
  getTransform_fst_eq trig _
    (cacheOK_applyTOps trig ops sfTransformable_Create (cacheOK_create trig))

lemma determinant_ne_zero_of_threshold (T : sfTransform)
    (h : singularThreshold ≤ |sfTransform_Determinant T|) :
    sfTransform_Determinant T ≠ 0 := by
  intro h0
  rw [h0, abs_zero] at h
  norm_num [singularThreshold] at h

/-- Claim C2: `GetInverse` never fails: above the singularity threshold it
returns the exact mathematical inverse (a two-sided inverse under
`Combine`), and below the threshold it returns the identity transform. -/
theorem getInverse_exact_or_identity (T : sfTransform) :
    (singularThreshold ≤ |sfTransform_Determinant T| →
        sfTransform_Combine T (sfTransform_GetInverse T) = sfTransform_Create ∧
        sfTransform_Combine (sfTransform_GetInverse T) T = sfTransform_Create) ∧
    (|sfTransform_Determinant T| < singularThreshold →
        sfTransform_GetInverse T = sfTransform_Create) := by
  constructor
  · intro h
    have hne := determinant_ne_zero_of_threshold T h
    have hnlt : ¬ |sfTransform_Determinant T| < singularThreshold := not_lt.mpr h
    constructor
    · simp only [sfTransform_GetInverse]
      rw [if_neg hnlt]
      simp only [sfTransform_Combine, sfTransform_Create, sfTransform.mk.injEq]
      refine ⟨?_, ?_, ?_, ?_, ?_, ?_, ?_, ?_, ?_⟩ <;>
        · field_simp
          try simp only [sfTransform_Determinant]
          try ring
    · simp only [sfTransform_GetInverse]
      rw [if_neg hnlt]
      simp only [sfTransform_Combine, sfTransform_Create, sfTransform.mk.injEq]
      refine ⟨?_, ?_, ?_, ?_, ?_, ?_, ?_, ?_, ?_⟩ <;>
        · field_simp
          try simp only [sfTransform_Determinant]
          try ring
  · intro h
    simp only [sfTransform_GetInverse]
    rw [if_pos h]

/-- Witness for C2: a diagonal transform of determinant 6 is inverted
exactly, and a rank-deficient transform of determinant 0 falls back to the
identity. -/
theorem getInverse_exact_or_identity_witness :
    (singularThreshold
        ≤ |sfTransform_Determinant (sfTransform_CreateFromMatrix 2 0 0 0 3 0 0 0 1)| ∧
      sfTransform_Combine (sfTransform_CreateFromMatrix 2 0 0 0 3 0 0 0 1)
          (sfTransform_GetInverse (sfTransform_CreateFromMatrix 2 0 0 0 3 0 0 0 1))
        = sfTransform_Create) ∧
    (|sfTransform_Determinant (sfTransform_CreateFromMatrix 1 2 3 2 4 6 0 0 1)|
        < singularThreshold ∧
      sfTransform_GetInverse (sfTransform_CreateFromMatrix 1 2 3 2 4 6 0 0 1)
        = sfTransform_Create) :=
  ⟨⟨by norm_num [singularThreshold, sfTransform_Determinant, sfTransform_CreateFromMatrix],
    ((getInverse_exact_or_identity (sfTransform_CreateFromMatrix 2 0 0 0 3 0 0 0 1)).1
      (by norm_num [singularThreshold, sfTransform_Determinant, sfTransform_CreateFromMatrix])).1⟩,
   ⟨by norm_num [singularThreshold, sfTransform_Determinant, sfTransform_CreateFromMatrix],
    (getInverse_exact_or_identity (sfTransform_CreateFromMatrix 1 2 3 2 4 6 0 0 1)).2
      (by norm_num [singularThreshold, sfTransform_Determinant, sfTransform_CreateFromMatrix])⟩⟩

/-- Claim C3: `TransformPoint` computes exactly
`x' = a00*x + a01*y + a02` and `y' = a10*x + a11*y + a12`. -/
theorem transformPoint_formula (t : sfTransform) (x y : ℚ) :
    sfTransform_TransformPoint t x y
      = (t.a00 * x + t.a01 * y + t.a02, t.a10 * x + t.a11 * y + t.a12) := rfl

/-- Claim C5: `Combine` is matrix multiplication: it is associative, and
there is a concrete pair of transforms (a translation and a scaling) on
which it does not commute. -/
theorem combine_assoc_not_comm :
    (∀ A B C : sfTransform,
        sfTransform_Combine (sfTransform_Combine A B) C
          = sfTransform_Combine A (sfTransform_Combine B C)) ∧
    ∃ A B : sfTransform,
        sfTransform_Combine A B ≠ sfTransform_Combine B A := by
  constructor
  · intro A B C
    simp only [sfTransform_Combine, sfTransform.mk.injEq]
    refine ⟨by ring, by ring, by ring, by ring, by ring, by ring, by ring, by ring, by ring⟩
  · refine ⟨translationTransform 1 0, scalingTransform 2 1, ?_⟩
    simp only [translationTransform, scalingTransform, sfTransform_CreateFromMatrix,
      sfTransform_Combine, ne_eq, sfTransform.mk.injEq]
    norm_num

lemma fmod360_nonneg (a : ℚ) : 0 ≤ fmod360 a := by
  have h : ((⌊a / 360⌋ : ℤ) : ℚ) ≤ a / 360 := Int.floor_le _
  have h2 : (360 : ℚ) * ((⌊a / 360⌋ : ℤ) : ℚ) ≤ 360 * (a / 360) :=
    mul_le_mul_of_nonneg_left h (by norm_num)
  have h3 : (360 : ℚ) * (a / 360) = a := by ring
  unfold fmod360
  linarith

lemma fmod360_lt_360 (a : ℚ) : fmod360 a < 360 := by
  have h : a / 360 < ((⌊a / 360⌋ : ℤ) : ℚ) + 1 := Int.lt_floor_add_one _
  have h2 : (360 : ℚ) * (a / 360) < 360 * (((⌊a / 360⌋ : ℤ) : ℚ) + 1) :=
    mul_lt_mul_of_pos_left h (by norm_num)
  have h3 : (360 : ℚ) * (a / 360) = a := by ring
  unfold fmod360
  linarith

/-- The rotation attribute is a normalized angle. -/
def RotationOK (t : sfTransformable) : Prop :=
  0 ≤ t.rotation ∧ t.rotation < 360

lemma rotationOK_create : RotationOK sfTransformable_Create := by
  constructor <;> norm_num [sfTransformable_Create]

lemma rotation_applyTOp_query (trig : ℚ → ℚ × ℚ) (t : sfTransformable) :
    (applyTOp trig t .query).rotation = t.rotation := by
  simp only [applyTOp, sfTransformable_GetTransform]
  cases h : t.transformCache <;> rfl

lemma rotationOK_applyTOp (trig : ℚ → ℚ × ℚ) (t : sfTransformable) (op : TOp)
    (h : RotationOK t) : RotationOK (applyTOp trig t op) := by
  cases op with
  | setPosition x y => exact h
  | setRotation a => exact ⟨fmod360_nonneg a, fmod360_lt_360 a⟩
  | setScale fx fy => exact h
  | setOrigin x y => exact h
  | move dx dy => exact h
  | rotate a => exact ⟨fmod360_nonneg _, fmod360_lt_360 _⟩
  | scaleBy fx fy => exact h
  | query =>
      unfold RotationOK
      rw [rotation_applyTOp_query]
      exact h

lemma rotationOK_applyTOps (trig : ℚ → ℚ × ℚ) (ops : List TOp) (t : sfTransformable)
    (h : RotationOK t) : RotationOK (applyTOps trig ops t) := by
  induction ops generalizing t with
  | nil => exact h
  | cons op ops ih => exact ih (applyTOp trig t op) (rotationOK_applyTOp trig t op h)

/-- Claim C4: rotation is normalized into `[0, 360)` on both set and get —
after any `SetRotation` and in every reachable state — and setting 450
stores 90 while setting -90 stores 270. -/
theorem rotation_normalized :
    (∀ (t : sfTransformable) (a : ℚ),
        0 ≤ sfTransformable_GetRotation (sfTransformable_SetRotation t a) ∧
        sfTransformable_GetRotation (sfTransformable_SetRotation t a) < 360) ∧
    (∀ (trig : ℚ → ℚ × ℚ) (ops : List TOp),
        0 ≤ sfTransformable_GetRotation (applyTOps trig ops sfTransformable_Create) ∧
        sfTransformable_GetRotation (applyTOps trig ops sfTransformable_Create) < 360) ∧
    sfTransformable_GetRotation (sfTransformable_SetRotation sfTransformable_Create 450) = 90 ∧
    sfTransformable_GetRotation (sfTransformable_SetRotation sfTransformable_Create (-90)) = 270 := by
  refine ⟨?_, ?_, ?_, ?_⟩
  · intro t a
    exact ⟨fmod360_nonneg a, fmod360_lt_360 a⟩
  · intro trig ops
    exact rotationOK_applyTOps trig ops sfTransformable_Create rotationOK_create
  · show fmod360 450 = 90
    have hf : ⌊(450 : ℚ) / 360⌋ = 1 := by
      rw [Int.floor_eq_iff]
      norm_num
    unfold fmod360
    rw [hf]
    norm_num
  · show fmod360 (-90) = 270
    have hf : ⌊(-90 : ℚ) / 360⌋ = -1 := by
      rw [Int.floor_eq_iff]
      norm_num
    unfold fmod360
    rw [hf]
    norm_num

/-- Claim C6: for every affine transform whose determinant is at or above
the singularity threshold, transforming a point and then transforming the
result by the inverse returns the original point exactly. -/
theorem inverse_roundtrip (T : sfTransform) (x y : ℚ)
    (haff : T.IsAffine)
    (h : singularThreshold ≤ |sfTransform_Determinant T|) :
    sfTransform_TransformPoint (sfTransform_GetInverse T)
        (sfTransform_TransformPoint T x y).1 (sfTransform_TransformPoint T x y).2
      = (x, y) := by
  obtain ⟨h20, h21, h22⟩ := haff
  have hne := determinant_ne_zero_of_threshold T h
  have hnlt : ¬ |sfTransform_Determinant T| < singularThreshold := not_lt.mpr h
  simp only [sfTransform_GetInverse]
  rw [if_neg hnlt]
  simp only [sfTransform_TransformPoint, Prod.mk.injEq]
  constructor
  · field_simp
    simp only [sfTransform_Determinant]
    simp only [h20, h21, h22]
    ring
  · field_simp
    simp only [sfTransform_Determinant]
    simp only [h20, h21, h22]
    ring

/-- Witness for C6: the affine transform with rows (2 1 5 / 0 3 7) has
determinant 6 and round-trips the point (3, 4). -/
theorem inverse_roundtrip_witness :
    (sfTransform_CreateFromMatrix 2 1 5 0 3 7 0 0 1).IsAffine ∧
    singularThreshold
      ≤ |sfTransform_Determinant (sfTransform_CreateFromMatrix 2 1 5 0 3 7 0 0 1)| ∧
    sfTransform_TransformPoint
        (sfTransform_GetInverse (sfTransform_CreateFromMatrix 2 1 5 0 3 7 0 0 1))
        (sfTransform_TransformPoint (sfTransform_CreateFromMatrix 2 1 5 0 3 7 0 0 1) 3 4).1
        (sfTransform_TransformPoint (sfTransform_CreateFromMatrix 2 1 5 0 3 7 0 0 1) 3 4).2
      = (3, 4) :=
  ⟨⟨rfl, rfl, rfl⟩,
   by norm_num [singularThreshold, sfTransform_Determinant, sfTransform_CreateFromMatrix],
   inverse_roundtrip (sfTransform_CreateFromMatrix 2 1 5 0 3 7 0 0 1) 3 4 ⟨rfl, rfl, rfl⟩
     (by norm_num [singularThreshold, sfTransform_Determinant, sfTransform_CreateFromMatrix])⟩

lemma boundsAcc_eq (l h v : ℚ) (hle : l ≤ h) :
    boundsAcc (l, h) v = (min l v, max h v) := by
  unfold boundsAcc
  dsimp only
  split_ifs with h1 h2
  · rw [min_eq_right (le_of_lt h1), max_eq_left (le_of_lt (lt_of_lt_of_le h1 hle))]
  · rw [min_eq_left (not_lt.mp h1), max_eq_right (le_of_lt h2)]
  · rw [min_eq_left (not_lt.mp h1), max_eq_left (not_lt.mp h2)]

lemma boundsAcc_chain (a b c d : ℚ) :
    boundsAcc (boundsAcc (boundsAcc (a, a) b) c) d
      = (min (min (min a b) c) d, max (max (max a b) c) d) := by
  rw [boundsAcc_eq a a b le_rfl,
      boundsAcc_eq _ _ c ((min_le_left a b).trans (le_max_left a b)),
      boundsAcc_eq _ _ d ((min_le_left _ _).trans
        (((min_le_left a b).trans (le_max_left a b)).trans (le_max_left _ _)))]

/-- Claim C7: `TransformRect` equals the axis-aligned bounding box of the
four corner points of the rectangle mapped through `TransformPoint`. -/
theorem transformRect_is_bbox (T : sfTransform) (r : sfFloatRect) :
    sfTransform_TransformRect T r = transformRectSpec T r := by
  simp only [sfTransform_TransformRect, transformRectSpec, boundsAcc_chain]

/-- Claim C8: a null UDP-socket handle is a defined no-op or default-value
return: `Destroy` is a no-op, `Bind`/`Send`/`Receive` return `sfSocketError`,
`IsBlocking` returns `sfFalse`, `GetLocalPort` returns 0. -/
theorem null_handle_defined {σ α : Type} (E : UdpEngine σ α) (port : Nat)
    (data : List Char) (address : sfIpAddress) (maxSize : Nat) (out : RecvOut) :
    sfUdpSocket_Destroy (none : Option σ) = none ∧
    sfUdpSocket_Bind E none port = sfSocketError ∧
    sfUdpSocket_Send E none data address port = sfSocketError ∧
    sfUdpSocket_Receive E none maxSize out = (sfSocketError, out) ∧
    sfUdpSocket_IsBlocking E none = sfFalse ∧
    sfUdpSocket_GetLocalPort E none = 0 :=
  ⟨rfl, rfl, rfl, rfl, rfl, rfl⟩

/-- Claim C9: `Receive` and `ReceivePacket` are atomic on error — whenever
the engine reports a status other than `Done`, that status is returned and
none of the caller-supplied output cells is written. -/
theorem receive_atomic_on_error {σ α : Type} (E : UdpEngine σ α) (s : σ)
    (maxSize : Nat) (out : RecvOut) (p : List Char) (pout : RecvPacketOut) :
    ((E.receiveOp s maxSize).status ≠ sfSocketDone →
        sfUdpSocket_Receive E (some s) maxSize out
          = ((E.receiveOp s maxSize).status, out)) ∧
    ((E.receivePacketOp s p).status ≠ sfSocketDone →
        sfUdpSocket_ReceivePacket E (some s) (some p) pout
          = ((E.receivePacketOp s p).status, pout)) := by
  constructor
  · intro h
    simp only [sfUdpSocket_Receive]
    rw [if_pos h]
  · intro h
    simp only [sfUdpSocket_ReceivePacket]
    rw [if_pos h]

/-- Witness for C9: a `NotReady` receive leaves all output cells untouched. -/
theorem receive_atomic_on_error_witness :
    ((witnessEngine.receiveOp () 5).status ≠ sfSocketDone ∧
      sfUdpSocket_Receive witnessEngine (some ()) 5 ⟨some 0, some "", some 0⟩
        = ((witnessEngine.receiveOp () 5).status, ⟨some 0, some "", some 0⟩)) ∧
    ((witnessEngine.receivePacketOp () []).status ≠ sfSocketDone ∧
      sfUdpSocket_ReceivePacket witnessEngine (some ()) (some []) ⟨some "", some 0⟩
        = ((witnessEngine.receivePacketOp () []).status, ⟨some "", some 0⟩)) :=
  ⟨⟨by decide,
    (receive_atomic_on_error witnessEngine () 5 ⟨some 0, some "", some 0⟩ []
        ⟨some "", some 0⟩).1 (by decide)⟩,
   ⟨by decide,
    (receive_atomic_on_error witnessEngine () 5 ⟨some 0, some "", some 0⟩ []
        ⟨some "", some 0⟩).2 (by decide)⟩⟩

/-- Claim C10: every output pointer may be NULL without fault — `Receive`
writes each of `sizeReceived`, `address`, `port` only when the corresponding
pointer is non-null, and `sfIpAddress_ToString` is a no-op on a NULL
destination. -/
theorem null_output_pointers {σ α : Type} (E : UdpEngine σ α) (socket : Option σ)
    (maxSize : Nat) (out : RecvOut) (a : sfIpAddress) :
    (out.sizeReceived = none →
        (sfUdpSocket_Receive E socket maxSize out).2.sizeReceived = none) ∧
    (out.address = none →
        (sfUdpSocket_Receive E socket maxSize out).2.address = none) ∧
    (out.port = none →
        (sfUdpSocket_Receive E socket maxSize out).2.port = none) ∧
    sfIpAddress_ToString a none = none := by
  refine ⟨?_, ?_, ?_, rfl⟩ <;> intro h <;>
    · cases socket with
      | none => simpa [sfUdpSocket_Receive] using h
      | some s =>
          by_cases hs : (E.receiveOp s maxSize).status = sfSocketDone
          · simp [sfUdpSocket_Receive, hs, h]
          · simp [sfUdpSocket_Receive, hs, h]

/-- Witness for C10: a successful receive into all-NULL output pointers
writes nothing, and `ToString` into a NULL destination does nothing. -/
theorem null_output_pointers_witness :
    ((⟨none, none, none⟩ : RecvOut).sizeReceived = none ∧
      (sfUdpSocket_Receive witnessEngineDone (some ()) 5
          ⟨none, none, none⟩).2.sizeReceived = none) ∧
    ((⟨none, none, none⟩ : RecvOut).address = none ∧
      (sfUdpSocket_Receive witnessEngineDone (some ()) 5
          ⟨none, none, none⟩).2.address = none) ∧
    ((⟨none, none, none⟩ : RecvOut).port = none ∧
      (sfUdpSocket_Receive witnessEngineDone (some ()) 5
          ⟨none, none, none⟩).2.port = none) ∧
    sfIpAddress_ToString ⟨"1.2.3.4"⟩ none = none :=
  ⟨⟨rfl, (null_output_pointers witnessEngineDone (some ()) 5 ⟨none, none, none⟩
      ⟨"1.2.3.4"⟩).1 rfl⟩,
   ⟨rfl, (null_output_pointers witnessEngineDone (some ()) 5 ⟨none, none, none⟩
      ⟨"1.2.3.4"⟩).2.1 rfl⟩,
   ⟨rfl, (null_output_pointers witnessEngineDone (some ()) 5 ⟨none, none, none⟩
      ⟨"1.2.3.4"⟩).2.2.1 rfl⟩,
   (null_output_pointers witnessEngineDone (some ()) 5 ⟨none, none, none⟩
      ⟨"1.2.3.4"⟩).2.2.2⟩
